import Mathlib

/-!
Shallow embedding of the `understanding-psycopg2` repository:
the CSV import/clean pipeline of `real-estate-data-analysis/real_estate_import.py`,
the student lookup of `class-roster-database/db.py`, and the roster script
`class-roster-database/class_roster_basic.py`, together with models of the
Python built-ins they use (`int()`, `decimal.Decimal`, `os.getenv`) and of the
`dateutil` timestamp parsing the import script relies on.
-/

set_option autoImplicit false

namespace Psycopg2Demo

/-! ## Character and list utilities -/

/-- ASCII decimal digit test. -/
def isDigitChar (c : Char) : Bool := 48 ≤ c.toNat && c.toNat ≤ 57

/-- Numeric value of an ASCII digit. -/
def digitVal (c : Char) : Nat := c.toNat - 48

/-- Python `str.strip()` whitespace characters (ASCII subset). -/
def isSpaceChar (c : Char) : Bool :=
  c == ' ' || c == '\t' || c == '\n' || c == '\r' || c.toNat == 11 || c.toNat == 12

/-- Strip leading and trailing whitespace, as Python's `int()`/`Decimal()` do. -/
def stripChars (l : List Char) : List Char :=
  ((l.dropWhile isSpaceChar).reverse.dropWhile isSpaceChar).reverse

/-- Does `p` occur at the start of `l`? -/
def startsWithSeq : List Char → List Char → Bool
  | [], _ => true
  | _ :: _, [] => false
  | a :: ps, b :: bs => a == b && startsWithSeq ps bs

/-- Does `p` occur as a contiguous subsequence of `l`?  Used to ask whether an
error message mentions a given field name or raw value. -/
def containsSeq (p : List Char) : List Char → Bool
  | [] => p.isEmpty
  | b :: bs => startsWithSeq p (b :: bs) || containsSeq p bs

/-- Does the string `sub` occur inside `s`? -/
def strContains (s sub : String) : Bool := containsSeq sub.toList s.toList

/-- Split a character list at every occurrence of `sep`. -/
def splitOnChar (sep : Char) : List Char → List (List Char)
  | [] => [[]]
  | c :: cs =>
    if c == sep then [] :: splitOnChar sep cs
    else
      match splitOnChar sep cs with
      | [] => [[c]]
      | g :: gs => (c :: g) :: gs

/-- Base-10 value of a digit list (most significant first). -/
def digitsToNat (l : List Char) : Nat := l.foldl (fun a c => a * 10 + digitVal c) 0

/-- All characters are ASCII digits. -/
def allDigits (l : List Char) : Bool := l.all isDigitChar

/-! ## Python exceptions

The scripts can raise `KeyError` (dict lookup), `ValueError` (`int()`,
`dateutil.parser.parse`), `decimal.InvalidOperation` (whose message,
`[<class 'decimal.ConversionSyntax'>]`, carries neither field nor value),
`TypeError` (`int(None)`), `psycopg2.Error`, `OSError` (`open`), `NameError`
and `AttributeError` (unbound/None cleanup targets). -/

inductive PyError where
  | keyError (key : String)
  | valueError (msg : String)
  | typeError (msg : String)
  | invalidOperation
  | databaseError (msg : String)
  | osError (msg : String)
  | nameError (name : String)
  | attributeError (msg : String)
  deriving Repr, DecidableEq

/-- The message a Python exception prints. -/
def PyError.message : PyError → String
  | .keyError k => "'" ++ k ++ "'"
  | .valueError m => m
  | .typeError m => m
  | .invalidOperation => "[<class 'decimal.ConversionSyntax'>]"
  | .databaseError m => m
  | .osError m => m
  | .nameError n => "name '" ++ n ++ "' is not defined"
  | .attributeError m => m

/-! ## Python `int()` on strings

`int(s)` strips whitespace, accepts an optional sign, then base-10 digits with
single underscores allowed between digits; anything else raises
`ValueError("invalid literal for int() with base 10: '<s>'")`. -/

/-- Continue a digit run: digits, with a single `_` allowed between digits. -/
def digitsValAcc : List Char → Nat → Option Nat
  | [], a => some a
  | c :: cs, a =>
    if isDigitChar c then digitsValAcc cs (a * 10 + digitVal c)
    else if c == '_' then
      match cs with
      | c2 :: cs2 => if isDigitChar c2 then digitsValAcc cs2 (a * 10 + digitVal c2) else none
      | [] => none
    else none

/-- A nonempty digit run (underscore-separated), starting with a digit. -/
def parseUnsignedInt : List Char → Option Nat
  | [] => none
  | c :: cs => if isDigitChar c then digitsValAcc cs (digitVal c) else none

/-- Model of Python `int(s)` for `str` arguments: `none` means `ValueError`. -/
def pyIntParse (s : String) : Option Int :=
  match stripChars s.toList with
  | '+' :: rest => (parseUnsignedInt rest).map Int.ofNat
  | '-' :: rest => (parseUnsignedInt rest).map (fun n => -(n : Int))
  | cs => (parseUnsignedInt cs).map Int.ofNat

/-- `int(s)` as the exception-raising operation used by `clean_data`. -/
def pyInt (s : String) : Except PyError Int :=
  match pyIntParse s with
  | some n => .ok n
  | none => .error (.valueError ("invalid literal for int() with base 10: '" ++ s ++ "'"))

/-! ## Python `decimal.Decimal` on finite numeric strings

A `Decimal` is sign × coefficient × 10^exponent, exactly as in the `decimal`
module; construction from a string is exact (arbitrary precision, no binary
floating point anywhere).  Special values (`NaN`, `Infinity`) are outside the
model's domain. -/

structure PyDecimal where
  neg : Bool
  coeff : Nat
  exp : Int
  deriving Repr, DecidableEq

/-- The exact rational value of a decimal. -/
def PyDecimal.val (d : PyDecimal) : ℚ :=
  (if d.neg then (-1 : ℚ) else 1) * (d.coeff : ℚ) * (10 : ℚ) ^ d.exp

/-- Exponent part of a decimal literal: optional sign then digits. -/
def parseExpPart : List Char → Option Int
  | '+' :: cs => if !cs.isEmpty && allDigits cs then some (digitsToNat cs) else none
  | '-' :: cs => if !cs.isEmpty && allDigits cs then some (-(digitsToNat cs : Int)) else none
  | cs => if !cs.isEmpty && allDigits cs then some (digitsToNat cs) else none

/-- Split off the longest leading run of digits. -/
def spanDigits : List Char → List Char × List Char
  | [] => ([], [])
  | c :: cs =>
    if isDigitChar c then
      let (a, b) := spanDigits cs
      (c :: a, b)
    else ([], c :: cs)

/-- Unsigned mantissa (digits, optional `.`, optional exponent) of a decimal
literal, with the given sign. -/
def pyDecimalParseCore (sign : Bool) (cs : List Char) : Option PyDecimal :=
  let (ip, r1) := spanDigits cs
  match r1 with
  | [] => if ip.isEmpty then none else some ⟨sign, digitsToNat ip, 0⟩
  | '.' :: r2 =>
    let (fp, r3) := spanDigits r2
    if ip.isEmpty && fp.isEmpty then none
    else
      match r3 with
      | [] => some ⟨sign, digitsToNat (ip ++ fp), -(fp.length : Int)⟩
      | 'e' :: ecs => (parseExpPart ecs).map (fun e => ⟨sign, digitsToNat (ip ++ fp), e - fp.length⟩)
      | 'E' :: ecs => (parseExpPart ecs).map (fun e => ⟨sign, digitsToNat (ip ++ fp), e - fp.length⟩)
      | _ => none
  | 'e' :: ecs =>
    if ip.isEmpty then none else (parseExpPart ecs).map (fun e => ⟨sign, digitsToNat ip, e⟩)
  | 'E' :: ecs =>
    if ip.isEmpty then none else (parseExpPart ecs).map (fun e => ⟨sign, digitsToNat ip, e⟩)
  | _ => none

/-- Model of `Decimal(s)` on finite numeric strings: `none` means
`decimal.InvalidOperation`. -/
def pyDecimalParse (s : String) : Option PyDecimal :=
  match stripChars s.toList with
  | '+' :: cs => pyDecimalParseCore false cs
  | '-' :: cs => pyDecimalParseCore true cs
  | cs => pyDecimalParseCore false cs

/-- `Decimal(s)` as the exception-raising operation used by `clean_data`. -/
def pyDecimal (s : String) : Except PyError PyDecimal :=
  match pyDecimalParse s with
  | some d => .ok d
  | none => .error .invalidOperation

/-! ## Timezone-aware timestamps

Modelled from the spec: `dateutil.parser.parse` and `dateutil.tz.gettz` are
external dependencies (not repository code).  The spec says the sale_date is
parsed "via a general date/time parser that … resolves a fixed set of named
timezone abbreviations (at minimum \"EDT\" → America/New_York's offset rules)
to a timezone-aware timestamp".  We model the parser on the
`YYYY-MM-DD HH:MM:SS [ABBR]` format the spec exercises, with the abbreviation
resolved through the script's `tzinfos` map, and America/New_York's offset
rules as the post-2007 US DST rule (UTC-4 from the second Sunday of March
02:00 to the first Sunday of November 02:00, UTC-5 otherwise). -/

structure NaiveDateTime where
  year : Int
  month : Nat
  day : Nat
  hour : Nat
  minute : Nat
  second : Nat
  deriving Repr, DecidableEq

inductive TZ where
  | newYork
  deriving Repr, DecidableEq

structure AwareDateTime where
  dt : NaiveDateTime
  tz : Option TZ
  deriving Repr, DecidableEq

/-- Days since 1970-01-01 of the civil date `y-m-d` (proleptic Gregorian). -/
def daysFromCivil (y : Int) (m d : Nat) : Int :=
  let y' : Int := if m ≤ 2 then y - 1 else y
  let era : Int := (if 0 ≤ y' then y' else y' - 399) / 400
  let yoe : Int := y' - era * 400
  let mp : Int := ((m : Int) + 9) % 12
  let doy : Int := (153 * mp + 2) / 5 + (d : Int) - 1
  let doe : Int := yoe * 365 + yoe / 4 - yoe / 100 + doy
  era * 146097 + doe - 719468

/-- Seconds since the epoch of a naive (wall-clock) datetime. -/
def NaiveDateTime.wallSeconds (t : NaiveDateTime) : Int :=
  86400 * daysFromCivil t.year t.month t.day
    + 3600 * (t.hour : Int) + 60 * (t.minute : Int) + (t.second : Int)

/-- Day of the week of `y-m-d`, with 0 = Sunday. -/
def weekday (y : Int) (m d : Nat) : Int := (daysFromCivil y m d + 4) % 7

/-- Day of month of the first Sunday of month `m` in year `y`. -/
def firstSundayOf (y : Int) (m : Nat) : Int := 1 + (7 - weekday y m 1) % 7

/-- Is New York on daylight-saving time (EDT, UTC-4) at this wall-clock time? -/
def inNYDst (t : NaiveDateTime) : Bool :=
  if t.month < 3 || 11 < t.month then false
  else if 3 < t.month && t.month < 11 then true
  else if t.month == 3 then
    let s := firstSundayOf t.year 3 + 7
    s < t.day || ((t.day : Int) == s && 2 ≤ t.hour)
  else
    let f := firstSundayOf t.year 11
    (t.day : Int) < f || ((t.day : Int) == f && t.hour < 2)

/-- UTC offset (seconds east of UTC) of a zone at a wall-clock time. -/
def utcOffsetSeconds : TZ → NaiveDateTime → Int
  | .newYork, t => if inNYDst t then -14400 else -18000

/-- The UTC instant (epoch seconds) a timezone-aware datetime denotes; naive
datetimes are read as UTC for comparison purposes. -/
def AwareDateTime.utcInstant (t : AwareDateTime) : Int :=
  t.dt.wallSeconds - (match t.tz with | some z => utcOffsetSeconds z t.dt | none => 0)

/-- The script's `tzinfos` map: `{"EDT": tz.gettz("America/New_York")}`
(`real_estate_import.py` line 48). -/
def tzinfos : List (String × TZ) := [("EDT", TZ.newYork)]

/-- A nonempty all-digit field. -/
def parseNatField (l : List Char) : Option Nat :=
  if !l.isEmpty && allDigits l then some (digitsToNat l) else none

/-- `YYYY-MM-DD` with basic range validation. -/
def parseDatePart (l : List Char) : Option (Int × Nat × Nat) :=
  match splitOnChar '-' l with
  | [ys, ms, ds] => do
    let y ← parseNatField ys
    let m ← parseNatField ms
    let d ← parseNatField ds
    if 1 ≤ m && m ≤ 12 && 1 ≤ d && d ≤ 31 then some ((y : Int), m, d) else none
  | _ => none

/-- `HH:MM:SS` with basic range validation. -/
def parseTimePart (l : List Char) : Option (Nat × Nat × Nat) :=
  match splitOnChar ':' l with
  | [hs, ms, ss] => do
    let h ← parseNatField hs
    let mi ← parseNatField ms
    let se ← parseNatField ss
    if h ≤ 23 && mi ≤ 59 && se ≤ 59 then some (h, mi, se) else none
  | _ => none

/-- Modelled from the spec: `dateutil.parser.parse(s, tzinfos=tzs)` on the
`YYYY-MM-DD HH:MM:SS [ABBR]` shape, resolving the abbreviation via `tzs`. -/
def dateutil_parse (s : String) (tzs : List (String × TZ)) : Option AwareDateTime :=
  match splitOnChar ' ' s.toList with
  | [dp, tp] => do
    let (y, m, d) ← parseDatePart dp
    let (h, mi, se) ← parseTimePart tp
    some ⟨⟨y, m, d, h, mi, se⟩, none⟩
  | [dp, tp, tzp] => do
    let (y, m, d) ← parseDatePart dp
    let (h, mi, se) ← parseTimePart tp
    let z ← tzs.lookup (String.mk tzp)
    some ⟨⟨y, m, d, h, mi, se⟩, some z⟩
  | _ => none

/-- `parser.parse(value, tzinfos=tzinfos)` as the exception-raising operation
used by `clean_data`; failure raises `ValueError("Unknown string format: …")`. -/
def dateutilParseExc (s : String) : Except PyError AwareDateTime :=
  match dateutil_parse s tzinfos with
  | some t => .ok t
  | none => .error (.valueError ("Unknown string format: " ++ s))

/-! ## The Row Cleaner: `clean_data` (`real_estate_import.py` lines 67-102) -/

/-- One CSV row as `csv.DictReader` yields it: field name → string value. -/
abbrev RawRow := List (String × String)

/-- A value bound into the parameterized INSERT: the cleaned dict holds
strings, ints, an aware datetime, and decimals. -/
inductive PgValue where
  | s (v : String)
  | i (v : Int)
  | dt (v : AwareDateTime)
  | dec (v : PyDecimal)
  deriving Repr, DecidableEq

/-- The `cleaned` dict, with its keys in insertion order. -/
abbrev CleanedDict := List (String × PgValue)

/-- `csv_row[k]`: Python dict subscript, raising `KeyError` when absent. -/
def rowGet (row : RawRow) (k : String) : Except PyError String :=
  match row.lookup k with
  | some v => .ok v
  | none => .error (.keyError k)

/-- The `clean_data` function, statement by statement in source order. -/
def clean_data (row : RawRow) : Except PyError CleanedDict := do
  let street ← rowGet row "street"
  let city ← rowGet row "city"
  let zipv ← rowGet row "zip"
  let state ← rowGet row "state"
  let beds ← pyInt (← rowGet row "beds")
  let baths ← pyInt (← rowGet row "baths")
  let sqft ← pyInt (← rowGet row "sq__ft")
  let ptype ← rowGet row "type"
  let saleDate ← dateutilParseExc (← rowGet row "sale_date")
  let price ← rowGet row "price"
  let lat ← pyDecimal (← rowGet row "latitude")
  let lon ← pyDecimal (← rowGet row "longitude")
  return [("street_address", .s street), ("city", .s city), ("zip_code", .s zipv),
    ("state", .s state), ("number_of_beds", .i beds), ("number_of_baths", .i baths),
    ("square_feet", .i sqft), ("property_type", .s ptype), ("sale_date", .dt saleDate),
    ("sale_price", .s price), ("latitude", .dec lat), ("longitude", .dec lon)]

/-- Cleaning a whole CSV, in input order, stopping at the first failure —
the sequence of `clean_data` results the import loop feeds to the INSERTs. -/
def cleanAll : List RawRow → Except PyError (List CleanedDict)
  | [] => .ok []
  | r :: rs => do
    let c ← clean_data r
    let cs ← cleanAll rs
    return c :: cs

/-! ## PostgreSQL transactional state

psycopg2 opens an implicit transaction at the first statement; `commit()`
makes the pending state visible, and closing the connection without a commit
rolls the pending state back (the store default the spec relies on).  A table
is `none` when it does not exist. -/

structure TxState (α : Type) where
  committed : Option (List α)
  current : Option (List α)
  deriving Repr, DecidableEq

/-- `DROP TABLE IF EXISTS …` inside the open transaction. -/
def execDropTable {α : Type} (s : TxState α) : TxState α := { s with current := none }

/-- `CREATE TABLE IF NOT EXISTS …` inside the open transaction. -/
def execCreateTable {α : Type} (s : TxState α) : TxState α :=
  { s with current := some (s.current.getD []) }

/-- A parameterized `INSERT`: appends one row, or raises if the table is
missing. -/
def execInsert {α : Type} (r : α) (s : TxState α) : Except PyError (TxState α) :=
  match s.current with
  | none => .error (.databaseError "relation does not exist")
  | some rows => .ok { s with current := some (rows ++ [r]) }

/-- `conn.commit()`. -/
def commitTx {α : Type} (s : TxState α) : TxState α :=
  { committed := s.current, current := s.current }

/-- `conn.close()` without a commit: pending changes are discarded. -/
def rollbackTx {α : Type} (s : TxState α) : TxState α :=
  { committed := s.committed, current := s.committed }

/-- The rows a later reader sees in a table. -/
def visible {α : Type} (t : Option (List α)) : List α := t.getD []

/-! ## The import script top level (`real_estate_import.py` lines 105-179) -/

abbrev PropertiesTable := Option (List CleanedDict)

/-- The `for row in csv_reader` loop: clean each row and execute one
parameterized INSERT per row, aborting at the first raised exception. -/
def insertRows : List RawRow → TxState CleanedDict → Except (PyError × TxState CleanedDict) (TxState CleanedDict)
  | [], s => .ok s
  | row :: rest, s =>
    match clean_data row with
    | .error e => .error (e, s)
    | .ok r =>
      match execInsert r s with
      | .error e => .error (e, s)
      | .ok s' => insertRows rest s'

/-- Failure oracle for one run of the import script: which external steps
fail, the pre-existing table, and the CSV's rows. -/
structure ImportRunSpec where
  connectFails : Bool
  cursorFails : Bool
  openFails : Bool
  commitFails : Bool
  initDB : PropertiesTable
  rows : List RawRow

/-- Observable outcome of one run of the import script. -/
structure ImportRunResult where
  connOpened : Bool
  connClosed : Bool
  finalDB : PropertiesTable
  uncaught : Option PyError
  deriving Repr, DecidableEq

/-- The `try:` body: returns (`conn` bound, `cur` bound, table state visible
after the run, raised exception if any).  The committed table only changes at
`conn.commit()`; every aborted path leaves `initDB` visible after the
connection closes (rollback). -/
def importTryBody (f : ImportRunSpec) : Bool × Bool × PropertiesTable × Option PyError :=
  if f.connectFails then (false, false, f.initDB, some (.databaseError "connection failed"))
  else if f.cursorFails then (true, false, f.initDB, some (.databaseError "cursor creation failed"))
  else
    let s0 : TxState CleanedDict := ⟨f.initDB, f.initDB⟩
    let s1 := execCreateTable (execDropTable s0)
    if f.openFails then (true, true, (rollbackTx s1).committed, some (.osError "No such file or directory"))
    else
      match insertRows f.rows s1 with
      | .error (e, s2) => (true, true, (rollbackTx s2).committed, some e)
      | .ok s2 =>
        if f.commitFails then (true, true, (rollbackTx s2).committed, some (.databaseError "commit failed"))
        else (true, true, (commitTx s2).committed, none)

/-- One full run: `try` body, the two `except` clauses (every modelled
exception is a `psycopg2.Error` or an `Exception`, so all are caught and
printed), then the `finally` block, which evaluates `if cur is not None:` —
a `NameError` when `cur` was never bound, in which case `conn.close()` is
never reached. -/
def runRealEstateScript (f : ImportRunSpec) : ImportRunResult :=
  let (connB, curB, db, _bodyErr) := importTryBody f
  if !curB then
    { connOpened := connB, connClosed := false, finalDB := db, uncaught := some (.nameError "cur") }
  else
    { connOpened := connB, connClosed := true, finalDB := db, uncaught := none }

/-- A run in which every external step succeeds (the only failures, if any,
come from cleaning the rows). -/
def noFailure (initDB : PropertiesTable) (rows : List RawRow) : ImportRunSpec :=
  ⟨false, false, false, false, initDB, rows⟩

/-- The table the import script leaves visible, as a function of the
pre-existing table and the CSV rows. -/
def runImportScript (initDB : PropertiesTable) (rows : List RawRow) : PropertiesTable :=
  (runRealEstateScript (noFailure initDB rows)).finalDB

/-! ## The class-roster scripts -/

/-- A row of the `students` table: serial id, name, favorite food. -/
structure StudentRow where
  id : Nat
  name : String
  favorite_food : String
  deriving Repr, DecidableEq

abbrev StudentsTable := Option (List StudentRow)

/-- `class_roster_basic.py` lines 32-90: drop `students`, recreate it, insert
("Victor","Chicken"), ("Esan","Rice"), ("Pelumi","Beans") with parameterized
queries (the serial key assigns ids 1, 2, 3 in the fresh table), commit. -/
def runRosterScript (initDB : StudentsTable) : StudentsTable :=
  let s0 : TxState StudentRow := ⟨initDB, initDB⟩
  let s1 := execCreateTable (execDropTable s0)
  let inserted : Except PyError (TxState StudentRow) := do
    let a ← execInsert ⟨1, "Victor", "Chicken"⟩ s1
    let b ← execInsert ⟨2, "Esan", "Rice"⟩ a
    execInsert ⟨3, "Pelumi", "Beans"⟩ b
  match inserted with
  | .ok s2 => (commitTx s2).committed
  | .error _ => (rollbackTx s1).committed

/-! ## The single-key lookup (`db.py` lines 75-89) -/

/-- `select * from students where name = %s`: the rows matching the bound
parameter, in table order. -/
def execSelectWhereName (table : List StudentRow) (name : String) : List StudentRow :=
  table.filter (fun r => r.name == name)

/-- `cursor.fetchone()`: the first row of the result set, or `None`. -/
def fetchone {α : Type} (rs : List α) : Option α := rs.head?

/-- `DB.execute_query(name)`: execute the parameterized template and fetch
the first row. -/
def execute_query (table : List StudentRow) (name : String) : Option StudentRow :=
  fetchone (execSelectWhereName table name)

/-- Failure oracle for `DB.main`. -/
structure DbMainSpec where
  connectFails : Bool
  cursorFails : Bool
  queryFails : Bool
  table : List StudentRow
  name : String

/-- The attribute state of a `DB` instance: is `self.connection` /
`self.cursor` bound to a live object (`True`) or still `None`? -/
structure DBObj where
  connection : Bool
  cursor : Bool
  deriving Repr, DecidableEq

/-- `DB.initialize_connection` (db.py lines 58-73): assigns
`self.connection`, then `self.cursor`; an attribute keeps its `None` when the
step raising the exception precedes its assignment. -/
def initialize_connection (f : DbMainSpec) (db : DBObj) : DBObj × Option PyError :=
  if f.connectFails then (db, some (.databaseError "connection failed"))
  else
    let db := { db with connection := true }
    if f.cursorFails then (db, some (.databaseError "cursor creation failed"))
    else ({ db with cursor := true }, none)

/-- `DB.close_connection` (db.py lines 91-100): `self.cursor.close()` then
`self.connection.close()`; calling `.close()` on `None` raises
`AttributeError`, and the connection is only closed when both succeed. -/
def close_connection (db : DBObj) : Bool × Option PyError :=
  if !db.cursor then (false, some (.attributeError "'NoneType' object has no attribute 'close'"))
  else if !db.connection then (false, some (.attributeError "'NoneType' object has no attribute 'close'"))
  else (true, none)

/-- Observable outcome of `DB.main`. -/
structure DbMainResult where
  connOpened : Bool
  connClosed : Bool
  result : Option StudentRow
  uncaught : Option PyError
  deriving Repr, DecidableEq

/-- `DB.main(name)` (db.py lines 102-127): try / bare-except / finally. -/
def DB_main (f : DbMainSpec) : DbMainResult :=
  let db0 : DBObj := ⟨false, false⟩
  let (db1, initErr) := initialize_connection f db0
  let returned : Option StudentRow :=
    match initErr with
    | some _ => none
    | none => if f.queryFails then none else execute_query f.table f.name
  let (closed, finErr) := close_connection db1
  { connOpened := db1.connection, connClosed := closed,
    result := (if finErr.isSome then none else returned), uncaught := finErr }

/-! ## Module-level configuration loading -/

abbrev Env := String → Option String

/-- `os.getenv` after `load_dotenv()`. -/
def os_getenv (env : Env) (k : String) : Option String := env k

/-- `int(x)` where `x` came from `os.getenv`: `int(None)` raises
`TypeError`, strings go through the string parse. -/
def pyIntObj (x : Option String) : Except PyError Int :=
  match x with
  | none => .error (.typeError
      "int() argument must be a string, a bytes-like object or a real number, not 'NoneType'")
  | some s => pyInt s

structure RealEstateConfig where
  dbname : Option String
  host : Option String
  user : Option String
  password : Option String
  port : Int
  path_to_csv : Option String
  deriving Repr, DecidableEq

/-- Module-level config of `real_estate_import.py` lines 39-44 (`HOST` reads
`"HREAL_ESTATE_HOST"`, as in the source; `PORT` applies `int()` to the raw
lookup). -/
def loadRealEstateConfig (env : Env) : Except PyError RealEstateConfig := do
  let dbname := os_getenv env "REAL_ESTATE_DBNAME"
  let host := os_getenv env "HREAL_ESTATE_HOST"
  let user := os_getenv env "REAL_ESTATE_USER"
  let password := os_getenv env "REAL_ESTATE_PASSWORD"
  let port ← pyIntObj (os_getenv env "REAL_ESTATE_PORT")
  let path := os_getenv env "PATH_TO_CSV"
  return ⟨dbname, host, user, password, port, path⟩

structure RosterConfig where
  dbname : Option String
  host : Option String
  user : Option String
  password : Option String
  port : Option String
  deriving Repr, DecidableEq

/-- Module-level config of `db.py` lines 31-35 and
`class_roster_basic.py` lines 26-30 (identical). -/
def loadRosterConfig (env : Env) : RosterConfig :=
  ⟨os_getenv env "CLASS_ROASTER_DBNAME", os_getenv env "CLASS_ROASTER_HOST",
   os_getenv env "CLASS_ROASTER_USER", os_getenv env "CLASS_ROASTER_PASSWORD",
   os_getenv env "CLASS_ROASTER_PORT"⟩

/-- The keyword arguments the roster scripts pass to `psycopg2.connect`. -/
def rosterConnectArgs (c : RosterConfig) : List (String × Option String) :=
  [("dbname", c.dbname), ("user", c.user), ("password", c.password),
   ("port", c.port), ("host", c.host)]

/-! ## Concrete inputs used to instantiate the theorems -/

/-- A well-formed CSV row with all twelve consumed source columns. -/
def sampleRow : RawRow :=
  [("street", "123 Main St"), ("city", "Sacramento"), ("zip", "95814"), ("state", "CA"),
   ("beds", "3"), ("baths", "2"), ("sq__ft", "1500"), ("type", "Residential"),
   ("sale_date", "2024-05-01 10:00:00 EDT"), ("price", "250000"),
   ("latitude", "37.123456"), ("longitude", "-121.5")]

/-- The cleaned dict `clean_data` produces for `sampleRow`. -/
def sampleCleaned : CleanedDict :=
  [("street_address", .s "123 Main St"), ("city", .s "Sacramento"),
   ("zip_code", .s "95814"), ("state", .s "CA"),
   ("number_of_beds", .i 3), ("number_of_baths", .i 2), ("square_feet", .i 1500),
   ("property_type", .s "Residential"),
   ("sale_date", .dt ⟨⟨2024, 5, 1, 10, 0, 0⟩, some .newYork⟩),
   ("sale_price", .s "250000"),
   ("latitude", .dec ⟨false, 37123456, -6⟩), ("longitude", .dec ⟨true, 1215, -1⟩)]

/-- A second well-formed row. -/
def sampleRow2 : RawRow :=
  [("street", "9 Oak Ave"), ("city", "Davis"), ("zip", "95616"), ("state", "CA"),
   ("beds", "2"), ("baths", "1"), ("sq__ft", "900"), ("type", "Condo"),
   ("sale_date", "2024-05-02 08:30:00 EDT"), ("price", "180000"),
   ("latitude", "38.5"), ("longitude", "-121.75")]

/-- The cleaned dict `clean_data` produces for `sampleRow2`. -/
def sampleCleaned2 : CleanedDict :=
  [("street_address", .s "9 Oak Ave"), ("city", .s "Davis"),
   ("zip_code", .s "95616"), ("state", .s "CA"),
   ("number_of_beds", .i 2), ("number_of_baths", .i 1), ("square_feet", .i 900),
   ("property_type", .s "Condo"),
   ("sale_date", .dt ⟨⟨2024, 5, 2, 8, 30, 0⟩, some .newYork⟩),
   ("sale_price", .s "180000"),
   ("latitude", .dec ⟨false, 385, -1⟩), ("longitude", .dec ⟨true, 12175, -2⟩)]

/-- `sampleRow` with a non-numeric `beds` value. -/
def badBedsRow : RawRow :=
  [("street", "123 Main St"), ("city", "Sacramento"), ("zip", "95814"), ("state", "CA"),
   ("beds", "abc"), ("baths", "2"), ("sq__ft", "1500"), ("type", "Residential"),
   ("sale_date", "2024-05-01 10:00:00 EDT"), ("price", "250000"),
   ("latitude", "37.123456"), ("longitude", "-121.5")]

/-- `sampleRow` with a non-numeric `latitude` value. -/
def badLatRow : RawRow :=
  [("street", "123 Main St"), ("city", "Sacramento"), ("zip", "95814"), ("state", "CA"),
   ("beds", "3"), ("baths", "2"), ("sq__ft", "1500"), ("type", "Residential"),
   ("sale_date", "2024-05-01 10:00:00 EDT"), ("price", "250000"),
   ("latitude", "not-a-number"), ("longitude", "-121.5")]

/-- The `students` table as the roster script leaves it. -/
def rosterTable : List StudentRow :=
  [⟨1, "Victor", "Chicken"⟩, ⟨2, "Esan", "Rice"⟩, ⟨3, "Pelumi", "Beans"⟩]

/-- A run of the import script in which `conn.cursor()` raises. -/
def cursorFailImportRun : ImportRunSpec := ⟨false, true, false, false, none, []⟩

/-- A call of `DB.main` in which `self.connection.cursor()` raises. -/
def cursorFailDbMain : DbMainSpec := ⟨false, true, false, rosterTable, "Victor"⟩

/-- An environment with every configuration variable absent. -/
def emptyEnv : Env := fun _ => none

/-- An environment providing only the port. -/
def portOnlyEnv : Env := fun k => if k == "REAL_ESTATE_PORT" then some "5432" else none

/-! ## Shared lemmas -/

/-- Folding digits onto an accumulator is multiplication by a power of ten. -/
theorem digitsToNat_acc (l : List Char) (a : Nat) :
    l.foldl (fun x c => x * 10 + digitVal c) a = a * 10 ^ l.length + digitsToNat l := by
  induction l generalizing a with
  | nil => simp [digitsToNat]
  | cons c t ih =>
    simp only [digitsToNat, List.foldl_cons, List.length_cons]
    rw [ih (a * 10 + digitVal c), ih (0 * 10 + digitVal c)]
    ring

/-- Value of a concatenation of digit runs. -/
theorem digitsToNat_append (l r : List Char) :
    digitsToNat (l ++ r) = digitsToNat l * 10 ^ r.length + digitsToNat r := by
  unfold digitsToNat
  rw [List.foldl_append, digitsToNat_acc]
  rfl

/-- `spanDigits` splits exactly at the first non-digit. -/
theorem spanDigits_all (l r : List Char) (hl : allDigits l = true)
    (hr : ∀ c, r.head? = some c → isDigitChar c = false) :
    spanDigits (l ++ r) = (l, r) := by
  induction l with
  | nil =>
    cases r with
    | nil => rfl
    | cons c t => simp [spanDigits, hr c rfl]
  | cons a t ih =>
    simp only [allDigits, List.all_cons, Bool.and_eq_true] at hl
    have ht : allDigits t = true := hl.2
    simp [spanDigits, hl.1, ih ht]

/-- `dropWhile` is the identity on lists with no satisfying head. -/
theorem dropWhile_eq_self_of (p : Char → Bool) (l : List Char)
    (h : ∀ c ∈ l, p c = false) : l.dropWhile p = l := by
  cases l with
  | nil => rfl
  | cons a t => simp [List.dropWhile_cons, h a (by simp)]

/-- Stripping whitespace is the identity on space-free character lists. -/
theorem stripChars_eq_self (l : List Char) (h : ∀ c ∈ l, isSpaceChar c = false) :
    stripChars l = l := by
  unfold stripChars
  rw [dropWhile_eq_self_of _ _ h,
    dropWhile_eq_self_of _ _ (fun c hc => h c (List.mem_reverse.mp hc)),
    List.reverse_reverse]

/-- ASCII digits are not whitespace. -/
theorem digit_not_space {c : Char} (h : isDigitChar c = true) : isSpaceChar c = false := by
  unfold isDigitChar at h
  simp only [Bool.and_eq_true, decide_eq_true_eq] at h
  unfold isSpaceChar
  simp only [Bool.or_eq_false_iff, beq_eq_false_iff_ne, ne_eq, decide_eq_false_iff_not]
  refine ⟨⟨⟨⟨⟨?_, ?_⟩, ?_⟩, ?_⟩, ?_⟩, ?_⟩ <;> intro he <;> first
    | (subst he; exact absurd h (by decide))
    | omega

/-- `Decimal(s)` on a plain `digits.digits` literal: the coefficient is the
concatenated digit string and the exponent the negated fraction length. -/
theorem pyDecimalParse_point (ip fp : List Char) (hip : ip ≠ [])
    (hipd : allDigits ip = true) (hfpd : allDigits fp = true) :
    pyDecimalParse (String.mk (ip ++ '.' :: fp))
      = some ⟨false, digitsToNat (ip ++ fp), -(fp.length : Int)⟩ := by
  have hnospace : ∀ c ∈ ip ++ '.' :: fp, isSpaceChar c = false := by
    intro c hc
    rcases List.mem_append.mp hc with h1 | h2
    · exact digit_not_space (by
        simp only [allDigits, List.all_eq_true] at hipd
        exact hipd c h1)
    · rcases List.mem_cons.mp h2 with h3 | h4
      · subst h3; decide
      · exact digit_not_space (by
          simp only [allDigits, List.all_eq_true] at hfpd
          exact hfpd c h4)
  obtain ⟨a, ip', rfl⟩ : ∃ a ip', ip = a :: ip' := by
    cases ip with
    | nil => exact absurd rfl hip
    | cons a t => exact ⟨a, t, rfl⟩
  have ha : isDigitChar a = true := by
    simp only [allDigits, List.all_cons, Bool.and_eq_true] at hipd
    exact hipd.1
  unfold pyDecimalParse
  have htl : (String.mk ((a :: ip') ++ '.' :: fp)).toList = (a :: ip') ++ '.' :: fp := rfl
  rw [htl, stripChars_eq_self _ hnospace]
  have hspan1 : spanDigits ((a :: ip') ++ '.' :: fp) = (a :: ip', '.' :: fp) :=
    spanDigits_all _ _ hipd (fun c hc => by
      simp only [List.head?_cons, Option.some.injEq] at hc
      subst hc; decide)
  have hspan2 : spanDigits (fp ++ []) = (fp, []) :=
    spanDigits_all _ _ hfpd (fun c hc => by simp at hc)
  rw [List.append_nil] at hspan2
  simp only [List.cons_append] at hspan1
  split
  · rename_i cs heq
    exact absurd (List.cons.injEq .. ▸ heq) (by
      intro hh
      rw [hh.1] at ha
      exact absurd ha (by decide))
  · rename_i cs heq
    exact absurd (List.cons.injEq .. ▸ heq) (by
      intro hh
      rw [hh.1] at ha
      exact absurd ha (by decide))
  · simp [pyDecimalParseCore, hspan1, hspan2]

/-- Cleaning preserves the number of rows. -/
theorem cleanAll_length : ∀ (rows : List RawRow) (cleaned : List CleanedDict),
    cleanAll rows = .ok cleaned → cleaned.length = rows.length := by
  intro rows
  induction rows with
  | nil => intro cleaned hc; cases hc; rfl
  | cons r rs ih =>
    intro cleaned hc
    cases hcr : clean_data r with
    | error e => simp [cleanAll, hcr, bind, Except.bind] at hc
    | ok c =>
      cases hcs : cleanAll rs with
      | error e => simp [cleanAll, hcr, hcs, bind, Except.bind] at hc
      | ok cs =>
        have hcl : cleaned = c :: cs := by
          simp [cleanAll, hcr, hcs, bind, Except.bind, pure, Except.pure] at hc
          exact hc.symm
        subst hcl
        simp [ih cs hcs]

/-- When every row cleans, the import loop appends each cleaned row to the
open transaction, in order, and never touches the committed state. -/
theorem insertRows_ok :
    ∀ (rows : List RawRow) (s : TxState CleanedDict) (cur cleaned : List CleanedDict),
    s.current = some cur → cleanAll rows = .ok cleaned →
    insertRows rows s = .ok ⟨s.committed, some (cur ++ cleaned)⟩ := by
  intro rows
  induction rows with
  | nil =>
    intro s cur cleaned hcur hc
    cases hc
    simp [insertRows, ← hcur]
  | cons r rs ih =>
    intro s cur cleaned hcur hc
    cases hcr : clean_data r with
    | error e => simp [cleanAll, hcr, bind, Except.bind] at hc
    | ok c =>
      cases hcs : cleanAll rs with
      | error e => simp [cleanAll, hcr, hcs, bind, Except.bind] at hc
      | ok cs =>
        have hcl : cleaned = c :: cs := by
          simp [cleanAll, hcr, hcs, bind, Except.bind, pure, Except.pure] at hc
          exact hc.symm
        subst hcl
        have hrec := ih { s with current := some (cur ++ [c]) } (cur ++ [c]) cs rfl hcs
        simp [insertRows, hcr, execInsert, hcur, hrec]

/-- When some row fails to clean, the import loop aborts with that error and
the committed state unchanged. -/
theorem insertRows_error :
    ∀ (rows : List RawRow) (s : TxState CleanedDict) (cur : List CleanedDict) (e : PyError),
    s.current = some cur → cleanAll rows = .error e →
    ∃ s', insertRows rows s = .error (e, s') ∧ s'.committed = s.committed := by
  intro rows
  induction rows with
  | nil => intro s cur e hcur hc; cases hc
  | cons r rs ih =>
    intro s cur e hcur hc
    cases hcr : clean_data r with
    | error e' =>
      have he : e' = e := by
        simp [cleanAll, hcr, bind, Except.bind] at hc
        exact hc
      subst he
      exact ⟨s, by simp [insertRows, hcr], rfl⟩
    | ok c =>
      cases hcs : cleanAll rs with
      | ok cs => simp [cleanAll, hcr, hcs, bind, Except.bind, pure, Except.pure] at hc
      | error e' =>
        have he : e' = e := by
          simp [cleanAll, hcr, hcs, bind, Except.bind] at hc
          exact hc
        subst he
        obtain ⟨s', h1, h2⟩ := ih { s with current := some (cur ++ [c]) } (cur ++ [c]) e' rfl hcs
        exact ⟨s', by simp [insertRows, hcr, execInsert, hcur, h1], by simpa using h2⟩

/-! ## The claims -/

/-- C1: for every RawRow containing the twelve consumed source columns with
well-formed values (the twelve lookups succeed, the three integer fields pass
Python's `int()`, the sale_date parses, and the two coordinates pass
`Decimal()`), `clean_data` returns a dict keyed by exactly the twelve
destination names under the fixed rename map, with the five address/type
fields equal to the raw strings, the three integer fields equal to the base-10
integer parse, and latitude/longitude equal to the decimal parse. -/
theorem clean_produces_renamed_typed_record (row : RawRow)
    (vs vc vz vst vb vba vsq vt vsd vp vla vlo : String)
    (nb nba nsq : Int) (t : AwareDateTime) (dla dlo : PyDecimal)
    (hs : row.lookup "street" = some vs) (hc : row.lookup "city" = some vc)
    (hz : row.lookup "zip" = some vz) (hst : row.lookup "state" = some vst)
    (hb : row.lookup "beds" = some vb) (hba : row.lookup "baths" = some vba)
    (hsq : row.lookup "sq__ft" = some vsq) (ht : row.lookup "type" = some vt)
    (hsd : row.lookup "sale_date" = some vsd) (hp : row.lookup "price" = some vp)
    (hla : row.lookup "latitude" = some vla) (hlo : row.lookup "longitude" = some vlo)
    (hbi : pyIntParse vb = some nb) (hbai : pyIntParse vba = some nba)
    (hsqi : pyIntParse vsq = some nsq)
    (hsdt : dateutil_parse vsd tzinfos = some t)
    (hlad : pyDecimalParse vla = some dla) (hlod : pyDecimalParse vlo = some dlo) :
    clean_data row = .ok [("street_address", .s vs), ("city", .s vc), ("zip_code", .s vz),
      ("state", .s vst), ("number_of_beds", .i nb), ("number_of_baths", .i nba),
      ("square_feet", .i nsq), ("property_type", .s vt), ("sale_date", .dt t),
      ("sale_price", .s vp), ("latitude", .dec dla), ("longitude", .dec dlo)] := by
  simp [clean_data, rowGet, pyInt, pyDecimal, dateutilParseExc, bind, Except.bind, pure,
    Except.pure, hs, hc, hz, hst, hb, hba, hsq, ht, hsd, hp, hla, hlo, hbi, hbai, hsqi,
    hsdt, hlad, hlod]

/-- Witness for C1 at a concrete well-formed row. -/
theorem clean_produces_renamed_typed_record_witness :
    clean_data sampleRow = .ok sampleCleaned :=
  clean_produces_renamed_typed_record sampleRow _ _ _ _ _ _ _ _ _ _ _ _ _ _ _ _ _ _
    rfl rfl rfl rfl rfl rfl rfl rfl rfl rfl rfl rfl rfl rfl rfl rfl rfl rfl

/-- C2 counterexample: on a row whose `beds` value is the non-numeric "abc",
`clean_data` fails with a plain `ValueError` whose message carries the
offending raw value but does not name the field (neither "beds" nor
"number_of_beds", which contains "beds", occurs in it) — so the claim that the
error names the exact field is false on the code. -/
theorem clean_error_does_not_name_field :
    clean_data badBedsRow
      = .error (.valueError "invalid literal for int() with base 10: 'abc'")
    ∧ strContains (PyError.valueError "invalid literal for int() with base 10: 'abc'").message
        "beds" = false
    ∧ strContains (PyError.valueError "invalid literal for int() with base 10: 'abc'").message
        "abc" = true :=
  ⟨rfl, by decide, by decide⟩

/-- C2 as amended: `clean_data` fails on the first malformed numeric field in
evaluation order (beds, baths, sq__ft before the date, then latitude,
longitude); for the integer fields the error is a `ValueError` carrying the
offending raw value (but no field name), and for the decimal fields it is the
constant `decimal.InvalidOperation`, which identifies neither field nor
value. -/
theorem clean_fails_on_first_malformed_numeric_field :
    (∀ (row : RawRow) (vs vc vz vst v : String),
      row.lookup "street" = some vs → row.lookup "city" = some vc →
      row.lookup "zip" = some vz → row.lookup "state" = some vst →
      row.lookup "beds" = some v → pyIntParse v = none →
      clean_data row = .error (.valueError ("invalid literal for int() with base 10: '" ++ v ++ "'")))
    ∧ (∀ (row : RawRow) (vs vc vz vst vb v : String) (nb : Int),
      row.lookup "street" = some vs → row.lookup "city" = some vc →
      row.lookup "zip" = some vz → row.lookup "state" = some vst →
      row.lookup "beds" = some vb → pyIntParse vb = some nb →
      row.lookup "baths" = some v → pyIntParse v = none →
      clean_data row = .error (.valueError ("invalid literal for int() with base 10: '" ++ v ++ "'")))
    ∧ (∀ (row : RawRow) (vs vc vz vst vb vba v : String) (nb nba : Int),
      row.lookup "street" = some vs → row.lookup "city" = some vc →
      row.lookup "zip" = some vz → row.lookup "state" = some vst →
      row.lookup "beds" = some vb → pyIntParse vb = some nb →
      row.lookup "baths" = some vba → pyIntParse vba = some nba →
      row.lookup "sq__ft" = some v → pyIntParse v = none →
      clean_data row = .error (.valueError ("invalid literal for int() with base 10: '" ++ v ++ "'")))
    ∧ (∀ (row : RawRow) (vs vc vz vst vb vba vsq vt vsd vp v : String) (nb nba nsq : Int)
        (t : AwareDateTime),
      row.lookup "street" = some vs → row.lookup "city" = some vc →
      row.lookup "zip" = some vz → row.lookup "state" = some vst →
      row.lookup "beds" = some vb → pyIntParse vb = some nb →
      row.lookup "baths" = some vba → pyIntParse vba = some nba →
      row.lookup "sq__ft" = some vsq → pyIntParse vsq = some nsq →
      row.lookup "type" = some vt →
      row.lookup "sale_date" = some vsd → dateutil_parse vsd tzinfos = some t →
      row.lookup "price" = some vp →
      row.lookup "latitude" = some v → pyDecimalParse v = none →
      clean_data row = .error .invalidOperation)
    ∧ (∀ (row : RawRow) (vs vc vz vst vb vba vsq vt vsd vp vla v : String) (nb nba nsq : Int)
        (t : AwareDateTime) (dla : PyDecimal),
      row.lookup "street" = some vs → row.lookup "city" = some vc →
      row.lookup "zip" = some vz → row.lookup "state" = some vst →
      row.lookup "beds" = some vb → pyIntParse vb = some nb →
      row.lookup "baths" = some vba → pyIntParse vba = some nba →
      row.lookup "sq__ft" = some vsq → pyIntParse vsq = some nsq →
      row.lookup "type" = some vt →
      row.lookup "sale_date" = some vsd → dateutil_parse vsd tzinfos = some t →
      row.lookup "price" = some vp →
      row.lookup "latitude" = some vla → pyDecimalParse vla = some dla →
      row.lookup "longitude" = some v → pyDecimalParse v = none →
      clean_data row = .error .invalidOperation) := by
  refine ⟨?_, ?_, ?_, ?_, ?_⟩ <;> intros <;>
    simp [clean_data, rowGet, pyInt, pyDecimal, dateutilParseExc, bind, Except.bind, pure,
      Except.pure, *]

/-- Witness for the amended C2 at concrete malformed rows. -/
theorem clean_fails_on_first_malformed_numeric_field_witness :
    clean_data badBedsRow
      = .error (.valueError "invalid literal for int() with base 10: 'abc'")
    ∧ clean_data badLatRow = .error .invalidOperation := by
  constructor
  · exact clean_fails_on_first_malformed_numeric_field.1 badBedsRow
      "123 Main St" "Sacramento" "95814" "CA" "abc" rfl rfl rfl rfl rfl rfl
  · exact clean_fails_on_first_malformed_numeric_field.2.2.2.1 badLatRow
      "123 Main St" "Sacramento" "95814" "CA" "3" "2" "1500" "Residential"
      "2024-05-01 10:00:00 EDT" "250000" "not-a-number" 3 2 1500
      ⟨⟨2024, 5, 1, 10, 0, 0⟩, some .newYork⟩
      rfl rfl rfl rfl rfl rfl rfl rfl rfl rfl rfl rfl rfl rfl rfl rfl

/-- C3: starting from a store with no visible `properties` rows, a CSV of N
well-formed rows leaves exactly the N cleaned rows, in input order, visible
after the single final commit; and when any row is malformed the whole batch
aborts (the one open transaction, covering every insert, is rolled back at
connection close), so zero rows are visible afterwards — no skip-and-continue
and no partial commit. -/
theorem import_all_or_nothing (init : PropertiesTable) (rows : List RawRow)
    (hfresh : visible init = []) :
    (∀ cleaned, cleanAll rows = .ok cleaned →
      runImportScript init rows = some cleaned ∧ cleaned.length = rows.length)
    ∧ (∀ e, cleanAll rows = .error e → visible (runImportScript init rows) = []) := by
  constructor
  · intro cleaned hc
    have h := insertRows_ok rows ⟨init, some []⟩ [] cleaned rfl hc
    refine ⟨?_, cleanAll_length rows cleaned hc⟩
    simp [runImportScript, runRealEstateScript, noFailure, importTryBody, execDropTable,
      execCreateTable, commitTx, h]
  · intro e hc
    obtain ⟨s', h1, h2⟩ := insertRows_error rows ⟨init, some []⟩ [] e rfl hc
    simpa [runImportScript, runRealEstateScript, noFailure, importTryBody, execDropTable,
      execCreateTable, rollbackTx, h1, h2] using hfresh

/-- Witness for C3: a two-row CSV imports both rows in order; the same CSV
with its second row malformed leaves zero visible rows. -/
theorem import_all_or_nothing_witness :
    runImportScript none [sampleRow, sampleRow2] = some [sampleCleaned, sampleCleaned2]
    ∧ ([sampleCleaned, sampleCleaned2] : List CleanedDict).length
        = [sampleRow, sampleRow2].length
    ∧ visible (runImportScript none [sampleRow, badBedsRow]) = [] :=
  ⟨((import_all_or_nothing none [sampleRow, sampleRow2] rfl).1
      [sampleCleaned, sampleCleaned2] rfl).1,
   ((import_all_or_nothing none [sampleRow, sampleRow2] rfl).1
      [sampleCleaned, sampleCleaned2] rfl).2,
   (import_all_or_nothing none [sampleRow, badBedsRow] rfl).2
     (.valueError "invalid literal for int() with base 10: 'abc'") rfl⟩

/-- C4: whenever `clean_data` succeeds, the `sale_price` entry of the cleaned
dict is the raw `price` string passed through unchanged (a `PgValue.s`, never
a numeric conversion). -/
theorem sale_price_passed_through_as_string (row : RawRow) (d : CleanedDict)
    (h : clean_data row = .ok d) :
    d.lookup "sale_price" = (row.lookup "price").map PgValue.s := by
  cases hp : List.lookup "price" row with
  | none =>
    exfalso
    unfold clean_data rowGet pyInt pyDecimal dateutilParseExc at h
    simp only [bind, Except.bind, pure, Except.pure, hp] at h
    repeat' split at h
    all_goals cases h
  | some vp =>
    unfold clean_data rowGet pyInt pyDecimal dateutilParseExc at h
    simp only [bind, Except.bind, pure, Except.pure, hp] at h
    repeat' split at h
    all_goals cases h
    all_goals simp [List.lookup, hp]

/-- Witness for C4 at a concrete row. -/
theorem sale_price_passed_through_as_string_witness :
    sampleCleaned.lookup "sale_price" = (sampleRow.lookup "price").map PgValue.s :=
  sale_price_passed_through_as_string sampleRow sampleCleaned rfl

/-- C5: the cleaner's date parser on "2024-05-01 10:00:00 EDT" resolves the
abbreviation through the script's `tzinfos` map to America/New_York (on DST
on that date, UTC-4), yielding a timezone-aware timestamp whose instant is
exactly the UTC instant 2024-05-01T14:00:00Z. -/
theorem edt_sale_date_parses_to_utc_instant :
    dateutilParseExc "2024-05-01 10:00:00 EDT"
      = .ok ⟨⟨2024, 5, 1, 10, 0, 0⟩, some .newYork⟩
    ∧ (AwareDateTime.mk ⟨2024, 5, 1, 10, 0, 0⟩ (some .newYork)).utcInstant
        = (AwareDateTime.mk ⟨2024, 5, 1, 14, 0, 0⟩ none).utcInstant :=
  ⟨rfl, by decide⟩

/-- C6: decimal coordinate parsing is exact: any `digits.digits` literal with
up to 6 fractional digits parses to the decimal whose rational value is
exactly integer-part + fraction/10^k (no floating-point rounding anywhere),
and concretely `clean_data` stores latitude "37.123456" as the decimal whose
value is exactly 37123456/1000000. -/
theorem coordinate_decimal_parse_is_exact (ip fp : List Char) (hip : ip ≠ [])
    (hfp : fp ≠ []) (hipd : allDigits ip = true) (hfpd : allDigits fp = true)
    (hlen : fp.length ≤ 6) :
    pyDecimalParse (String.mk (ip ++ '.' :: fp))
        = some ⟨false, digitsToNat (ip ++ fp), -(fp.length : Int)⟩
    ∧ (PyDecimal.mk false (digitsToNat (ip ++ fp)) (-(fp.length : Int))).val
        = (digitsToNat ip : ℚ) + (digitsToNat fp : ℚ) / (10 : ℚ) ^ fp.length
    ∧ (clean_data sampleRow).map (fun d => d.lookup "latitude")
        = .ok (some (.dec ⟨false, 37123456, -6⟩))
    ∧ (PyDecimal.mk false 37123456 (-6)).val = (37123456 : ℚ) / 1000000 := by
  refine ⟨pyDecimalParse_point ip fp hip hipd hfpd, ?_, by rfl, ?_⟩
  · unfold PyDecimal.val
    rw [digitsToNat_append]
    push_cast
    rw [zpow_neg, zpow_natCast]
    have h10 : ((10 : ℚ) ^ fp.length) ≠ 0 := by positivity
    field_simp
  · unfold PyDecimal.val
    rw [show ((-6 : ℤ)) = -((6 : ℕ) : ℤ) from rfl, zpow_neg, zpow_natCast]
    norm_num

/-- Witness for C6 at the spec's concrete coordinate "37.123456". -/
theorem coordinate_decimal_parse_is_exact_witness :
    pyDecimalParse "37.123456" = some ⟨false, 37123456, -6⟩
    ∧ (PyDecimal.mk false 37123456 (-6)).val = (37 : ℚ) + 123456 / 10 ^ 6
    ∧ (clean_data sampleRow).map (fun d => d.lookup "latitude")
        = .ok (some (.dec ⟨false, 37123456, -6⟩))
    ∧ (PyDecimal.mk false 37123456 (-6)).val = (37123456 : ℚ) / 1000000 := by
  exact coordinate_decimal_parse_is_exact ['3', '7'] ['1', '2', '3', '4', '5', '6']
    (by decide) (by decide) (by decide) (by decide) (by decide)

/-- C7 (code bug): the connection is NOT released on every exit path.  On the
path where the connection is established but cursor creation raises, the
`finally` block of `real_estate_import.py` evaluates `if cur is not None:`
with `cur` never bound and raises `NameError` before reaching `conn.close()`;
`DB.main` in `db.py` likewise calls `self.cursor.close()` on `None`, raising
`AttributeError` before `self.connection.close()`.  In both scripts that path
leaves the acquired connection open, contradicting the claim (and the code's
own cleanup comments). -/
theorem cursor_failure_leaks_connection :
    (runRealEstateScript cursorFailImportRun).connOpened = true
    ∧ (runRealEstateScript cursorFailImportRun).connClosed = false
    ∧ (runRealEstateScript cursorFailImportRun).uncaught = some (.nameError "cur")
    ∧ (DB_main cursorFailDbMain).connOpened = true
    ∧ (DB_main cursorFailDbMain).connClosed = false
    ∧ (DB_main cursorFailDbMain).uncaught
        = some (.attributeError "'NoneType' object has no attribute 'close'") :=
  ⟨rfl, rfl, rfl, rfl, rfl, rfl⟩

/-- C8 counterexample: with every configuration variable absent, the import
script does not proceed to the connection call — the module-level
`int(os.getenv("REAL_ESTATE_PORT"))` raises `TypeError` on `None` at
config-load time, so the port's null is never passed through silently. -/
theorem missing_port_raises_type_error_at_load :
    loadRealEstateConfig emptyEnv = .error (.typeError
      "int() argument must be a string, a bytes-like object or a real number, not 'NoneType'") :=
  rfl

/-- C8 as amended: the roster scripts pass every absent variable through as a
silent null into the `psycopg2.connect` keyword arguments, and the import
script does so for dbname, host, user, password and the CSV path — but a
missing port makes the import script fail at config-load time with an
uncaught `TypeError` instead of passing a null through. -/
theorem config_absent_vars_pass_none_except_port :
    (∀ env : Env, loadRosterConfig env =
        ⟨env "CLASS_ROASTER_DBNAME", env "CLASS_ROASTER_HOST", env "CLASS_ROASTER_USER",
         env "CLASS_ROASTER_PASSWORD", env "CLASS_ROASTER_PORT"⟩)
    ∧ (∀ (env : Env) (p : String) (n : Int), env "REAL_ESTATE_PORT" = some p →
        pyIntParse p = some n →
        loadRealEstateConfig env = .ok ⟨env "REAL_ESTATE_DBNAME", env "HREAL_ESTATE_HOST",
          env "REAL_ESTATE_USER", env "REAL_ESTATE_PASSWORD", n, env "PATH_TO_CSV"⟩)
    ∧ (∀ env : Env, env "REAL_ESTATE_PORT" = none →
        loadRealEstateConfig env = .error (.typeError
          "int() argument must be a string, a bytes-like object or a real number, not 'NoneType'")) := by
  refine ⟨fun env => rfl, ?_, ?_⟩
  · intro env p n hp hn
    simp [loadRealEstateConfig, os_getenv, pyIntObj, pyInt, bind, Except.bind, pure,
      Except.pure, hp, hn]
  · intro env hp
    simp [loadRealEstateConfig, os_getenv, pyIntObj, bind, Except.bind, hp]

/-- Witness for the amended C8: only the port set — all other variables load
as silent `none`s. -/
theorem config_absent_vars_pass_none_except_port_witness :
    loadRealEstateConfig portOnlyEnv = .ok ⟨none, none, none, none, 5432, none⟩ :=
  config_absent_vars_pass_none_except_port.2.1 portOnlyEnv "5432" 5432 rfl rfl

/-- C9: for every name, `DB.execute_query` runs the one parameterized SELECT
and returns the first matching `students` row in table order, and when no row
matches it returns the explicit `None` outcome — the function is total, so the
not-found case never raises. -/
theorem lookup_returns_first_match_or_none (table : List StudentRow) (name : String) :
    execute_query table name = table.find? (fun r => r.name == name)
    ∧ ((∀ r ∈ table, r.name ≠ name) → execute_query table name = none) := by
  have h1 : execute_query table name = table.find? (fun r => r.name == name) := by
    induction table with
    | nil => rfl
    | cons a t ih =>
      simp only [execute_query, execSelectWhereName, fetchone] at ih ⊢
      by_cases h : (a.name == name) = true
      · simp [List.filter_cons, h]
      · simp [List.filter_cons, h, ih]
  refine ⟨h1, fun hnone => ?_⟩
  rw [h1, List.find?_eq_none]
  intro r hr
  simpa using hnone r hr

/-- Witness for C9: in the roster table, "Esan" finds the Rice row and
"Nonexistent" yields the not-found outcome, not an error. -/
theorem lookup_returns_first_match_or_none_witness :
    execute_query rosterTable "Nonexistent" = none
    ∧ execute_query rosterTable "Esan" = some ⟨2, "Esan", "Rice"⟩ := by
  constructor
  · exact (lookup_returns_first_match_or_none rosterTable "Nonexistent").2 (by decide)
  · rw [(lookup_returns_first_match_or_none rosterTable "Esan").1]
    decide

/-- C10: both scripts drop any pre-existing table before recreating it inside
the same committed transaction, so whatever the previous table held, a
successful run leaves exactly the current input's rows: the import script's
final table is the cleaned rows of this CSV for every initial table, and the
roster script's final table is exactly the three inserted students for every
initial table. -/
theorem scripts_drop_and_recreate_tables (init : PropertiesTable) (initS : StudentsTable)
    (rows : List RawRow) (cleaned : List CleanedDict) (hc : cleanAll rows = .ok cleaned) :
    runImportScript init rows = some cleaned ∧ runRosterScript initS = some rosterTable := by
  constructor
  · have h := insertRows_ok rows ⟨init, some []⟩ [] cleaned rfl hc
    simp [runImportScript, runRealEstateScript, noFailure, importTryBody, execDropTable,
      execCreateTable, commitTx, h]
  · rfl

/-- Witness for C10: starting from non-empty tables, the stale rows are gone
and only the current input's rows remain. -/
theorem scripts_drop_and_recreate_tables_witness :
    runImportScript (some [sampleCleaned2]) [sampleRow] = some [sampleCleaned]
    ∧ runRosterScript (some [⟨9, "Old", "Stale"⟩]) = some rosterTable :=
  scripts_drop_and_recreate_tables (some [sampleCleaned2]) (some [⟨9, "Old", "Stale"⟩])
    [sampleRow] [sampleCleaned] rfl

end Psycopg2Demo
